import Mathlib

/-!
Verification development for the AES events scraper (`src/main.py`).

The Python source is shallowly embedded: JSON values become an inductive
type, Python dictionary access / truthiness / `or` / `str()` become
executable Lean functions, and fallible Python code (code that can raise)
is embedded in the `Except PyErr` monad.  Network access is abstracted as
a function from request URLs to responses, so that the per-item fetchers
and the two aggregation phases of `AESScraper.run` can be reasoned about
for an arbitrary network behaviour.
-/

/-- A JSON value as produced by `response.json()` in the source.  Python
`None` is `null`; numbers are modelled as integers (the payload fields the
source manipulates are identifiers, counts and fees, used only through
truthiness, `str()` and `int()`). -/
inductive JSON where
  | null : JSON
  | bool : Bool → JSON
  | num : Int → JSON
  | str : String → JSON
  | arr : List JSON → JSON
  | obj : List (String × JSON) → JSON

/-- Python exceptions that the embedded code can raise. -/
inductive PyErr where
  | attributeError : String → PyErr
  | keyError : String → PyErr
  | typeError : String → PyErr
  | valueError : String → PyErr
  | httpError : Nat → PyErr
  | decodeError : String → PyErr
  | transportError : String → PyErr
deriving DecidableEq

/-- Python truthiness of a JSON value: `None`, `False`, `0`, `""`, `[]`
and `{}` are falsy, everything else truthy. -/
def truthy : JSON → Bool
  | .null => false
  | .bool b => b
  | .num n => n != 0
  | .str s => s != ""
  | .arr xs => !xs.isEmpty
  | .obj kvs => !kvs.isEmpty

/-- Python `a or b` on JSON values: `a` if truthy, else `b`. -/
def pyOr (a b : JSON) : JSON := if truthy a then a else b

/-- Last-binding lookup in a key/value list, matching the dictionary a
JSON decoder builds (later duplicate keys overwrite earlier ones). -/
def jlookup (kvs : List (String × JSON)) (k : String) : Option JSON :=
  kvs.foldl (fun acc kv => if kv.1 = k then some kv.2 else acc) none

/-- Python `data.get(k)`: on a dict, the stored value or `None`; on any
other value it raises `AttributeError` (no `.get` attribute). -/
def pyGet : JSON → String → Except PyErr JSON
  | .obj kvs, k => .ok ((jlookup kvs k).getD JSON.null)
  | _, _ => .error (.attributeError "get")

/-- Python `data[k]` subscription with a string key: on a dict, the stored
value or `KeyError`; on non-dicts a `TypeError`. -/
def pyIndex : JSON → String → Except PyErr JSON
  | .obj kvs, k =>
    match jlookup kvs k with
    | some v => .ok v
    | none => .error (.keyError k)
  | _, _ => .error (.typeError "not subscriptable")

/-- Python `x is None` (equivalently `x == None` for decoded JSON). -/
def isNone : JSON → Bool
  | .null => true
  | _ => false

/-- Whether a JSON value is an object (a Python dict). -/
def isObj : JSON → Bool
  | .obj _ => true
  | _ => false

/-- Whether a JSON value is a string. -/
def isStr : JSON → Bool
  | .str _ => true
  | _ => false

mutual
/-- Python `repr` of a decoded JSON value (model: containers rendered
with Python separators, strings quoted; enough structure for the
diagnostic strings the scraper builds). -/
def pyRepr : JSON → String
  | .null => "None"
  | .bool true => "True"
  | .bool false => "False"
  | .num n => toString n
  | .str s => String.mk [Char.ofNat 39] ++ s ++ String.mk [Char.ofNat 39]
  | .arr xs => "[" ++ pyReprList xs ++ "]"
  | .obj kvs => "\x7b" ++ pyReprKVs kvs ++ "\x7d"

/-- Comma-separated `repr`s of the elements of a Python list. -/
def pyReprList : List JSON → String
  | [] => ""
  | [x] => pyRepr x
  | x :: xs => pyRepr x ++ ", " ++ pyReprList xs

/-- Comma-separated `key: value` `repr`s of the entries of a Python dict. -/
def pyReprKVs : List (String × JSON) → String
  | [] => ""
  | [kv] => String.mk [Char.ofNat 39] ++ kv.1 ++ String.mk [Char.ofNat 39] ++ ": " ++ pyRepr kv.2
  | kv :: kvs =>
    String.mk [Char.ofNat 39] ++ kv.1 ++ String.mk [Char.ofNat 39] ++ ": " ++ pyRepr kv.2
      ++ ", " ++ pyReprKVs kvs
end

/-- Python `str()` of a decoded JSON value (as interpolated by f-strings
in the source): strings unquoted, otherwise as `repr`. -/
def pyStr : JSON → String
  | .str s => s
  | j => pyRepr j

/-- Escape a character for a JSON string literal (model: quote and
backslash only, the cases `json.dumps` always escapes). -/
def jsonEscapeChar (c : Char) : String :=
  if c = '"' then "\\\"" else if c = '\\' then "\\\\" else String.mk [c]

mutual
/-- Python `json.dumps` of a decoded JSON value (model: default
separators, quote/backslash escaping). -/
def jsonDumps : JSON → String
  | .null => "null"
  | .bool true => "true"
  | .bool false => "false"
  | .num n => toString n
  | .str s => "\"" ++ String.join (s.toList.map jsonEscapeChar) ++ "\""
  | .arr xs => "[" ++ jsonDumpsList xs ++ "]"
  | .obj kvs => "\x7b" ++ jsonDumpsKVs kvs ++ "\x7d"

/-- Comma-separated `json.dumps` of list elements. -/
def jsonDumpsList : List JSON → String
  | [] => ""
  | [x] => jsonDumps x
  | x :: xs => jsonDumps x ++ ", " ++ jsonDumpsList xs

/-- Comma-separated `"key": value` dumps of dict entries. -/
def jsonDumpsKVs : List (String × JSON) → String
  | [] => ""
  | [kv] => "\"" ++ kv.1 ++ "\": " ++ jsonDumps kv.2
  | kv :: kvs => "\"" ++ kv.1 ++ "\": " ++ jsonDumps kv.2 ++ ", " ++ jsonDumpsKVs kvs
end

/-- Python `repr` of an exception, as stored in an error record's
`message` field. -/
def pyErrRepr : PyErr → String
  | .attributeError m => "AttributeError(" ++ m ++ ")"
  | .keyError k => "KeyError(" ++ String.mk [Char.ofNat 39] ++ k ++ String.mk [Char.ofNat 39] ++ ")"
  | .typeError m => "TypeError(" ++ m ++ ")"
  | .valueError m => "ValueError(" ++ m ++ ")"
  | .httpError n => "HTTPError(" ++ toString n ++ ")"
  | .decodeError m => "JSONDecodeError(" ++ m ++ ")"
  | .transportError m => "RequestException(" ++ m ++ ")"

/-- Characters stripped by Python `str.strip()` with no argument. -/
def isPySpace (c : Char) : Bool :=
  c = ' ' || c = '\t' || c = '\n' || c = '\x0d' || c = '\x0b' || c = '\x0c'

/-- Python `s.strip()`: drop leading and trailing whitespace. -/
def pyStrip (s : String) : String :=
  String.mk (((s.toList.dropWhile isPySpace).reverse.dropWhile isPySpace).reverse)

/-- Python `s.rstrip(", ")`: drop every trailing comma or space. -/
def pyRstripCS (s : String) : String :=
  String.mk ((s.toList.reverse.dropWhile (fun c => c = ',' || c = ' ')).reverse)

/-- Python `s.replace("Z", "")`: remove every occurrence of `Z`. -/
def stripZ (s : String) : String :=
  String.mk (s.toList.filter (fun c => c != 'Z'))

/-- Python `s[:n]` on a string: keep the first `n` characters. -/
def pyTruncate (n : Nat) (s : String) : String :=
  String.mk (s.toList.take n)

/-- The calendar date carried by a parsed `datetime` (the time of day and
offset do not influence `strftime` with the format the source uses). -/
structure PyDate where
  year : Nat
  month : Nat
  day : Nat
deriving DecidableEq

/-- Gregorian leap-year test, as the `datetime` library uses. -/
def isLeap (y : Nat) : Bool :=
  (y % 4 == 0 && y % 100 != 0) || y % 400 == 0

/-- Number of days in a month of a given year. -/
def daysInMonth (y m : Nat) : Nat :=
  if m = 2 then (if isLeap y then 29 else 28)
  else if m = 4 || m = 6 || m = 9 || m = 11 then 30
  else 31

/-- Parse an exact run of decimal digits as a natural number. -/
def parseNatExact (cs : List Char) : Option Nat :=
  if cs.isEmpty then none
  else if cs.all Char.isDigit then
    some (cs.foldl (fun acc c => acc * 10 + (c.toNat - '0'.toNat)) 0)
  else none

/-- Parse the ten-character dashed calendar date `YYYY-MM-DD`, validating
ranges the way `datetime.date` does. -/
def parseDateList (cs : List Char) : Option PyDate :=
  match cs with
  | [y1, y2, y3, y4, s1, m1, m2, s2, d1, d2] =>
    if s1 = '-' && s2 = '-' then
      match parseNatExact [y1, y2, y3, y4], parseNatExact [m1, m2], parseNatExact [d1, d2] with
      | some y, some m, some d =>
        if 1 ≤ y && 1 ≤ m && m ≤ 12 && 1 ≤ d && d ≤ daysInMonth y m then
          some ⟨y, m, d⟩
        else none
      | _, _, _ => none
    else none
  | _ => none

/-- Validity of a colon-separated clock time `HH[:MM[:SS[.ffffff]]]`, the
time shapes `datetime.fromisoformat` accepts in the dashed format. -/
def validClock (allowFrac : Bool) (cs : List Char) : Bool :=
  match cs with
  | [h1, h2] =>
    match parseNatExact [h1, h2] with
    | some h => h ≤ 23
    | none => false
  | [h1, h2, c1, m1, m2] =>
    c1 = ':' &&
      (match parseNatExact [h1, h2], parseNatExact [m1, m2] with
       | some h, some m => h ≤ 23 && m ≤ 59
       | _, _ => false)
  | h1 :: h2 :: c1 :: m1 :: m2 :: c2 :: s1 :: s2 :: rest =>
    c1 = ':' && c2 = ':' &&
      (match parseNatExact [h1, h2], parseNatExact [m1, m2], parseNatExact [s1, s2] with
       | some h, some m, some s => h ≤ 23 && m ≤ 59 && s ≤ 59
       | _, _, _ => false) &&
      (match rest with
       | [] => true
       | c :: ds => allowFrac && (c = '.' || c = ',') && !ds.isEmpty && ds.all Char.isDigit)
  | _ => false

/-- Validity of the time-of-day part of an ISO string, an optional UTC
offset `+HH:MM`-style suffix included. -/
def validTimePart (cs : List Char) : Bool :=
  let base := cs.takeWhile (fun c => c ≠ '+' && c ≠ '-')
  let rest := cs.drop base.length
  validClock true base &&
    (match rest with
     | [] => true
     | _ :: off => validClock false off)

/-- Model of `datetime.fromisoformat` for the dashed formats the upstream
API emits: a `YYYY-MM-DD` date, optionally followed by a one-character
separator and a time of day (with optional fraction and offset).  Returns
the calendar date on success, `none` where the library raises
`ValueError`. -/
def fromisoformat (s : String) : Option PyDate :=
  let cs := s.toList
  if cs.length = 10 then parseDateList cs
  else if 12 ≤ cs.length then
    match parseDateList (cs.take 10) with
    | some d => if validTimePart (cs.drop 11) then some d else none
    | none => none
  else none

/-- Zero-padded two-digit decimal rendering. -/
def pad2 (n : Nat) : String :=
  if n < 10 then "0" ++ toString n else toString n

/-- Zero-padded four-digit decimal rendering. -/
def pad4 (n : Nat) : String :=
  if n < 10 then "000" ++ toString n
  else if n < 100 then "00" ++ toString n
  else if n < 1000 then "0" ++ toString n
  else toString n

/-- `datetime.strftime` with format string `%m/%d/%Y`. -/
def strftimeMDY (d : PyDate) : String :=
  pad2 d.month ++ "/" ++ pad2 d.day ++ "/" ++ pad4 d.year

/-- Embeds `_fmt_date` (src/main.py:45-51), applied to a decoded JSON
field value: falsy input returns `""`; a truthy string is parsed after
removing every `Z` and formatted `MM/DD/YYYY`, a `ValueError` from the
parse being absorbed as `""`; a truthy non-string raises
`AttributeError` (no `.replace`), which the `except ValueError` clause
does not catch. -/
def fmt_date (iso : JSON) : Except PyErr String :=
  if truthy iso = false then .ok ""
  else
    match iso with
    | .str s =>
      match fromisoformat (stripZ s) with
      | some d => .ok (strftimeMDY d)
      | none => .ok ""
    | _ => .error (.attributeError "replace")

/-- Embeds the `EventRecord` dataclass (src/main.py:21-33).  Fields keep
the decoded-JSON type: the source assigns some fields with `str(...)` or
an f-string (always a string) and others with `data.get(k) or ""` (the
raw JSON value when truthy). -/
structure EventRecord where
  event_id : JSON := .null
  event_url : JSON := .null
  name : JSON := .null
  tournament_type : JSON := .null
  host : JSON := .null
  location : JSON := .null
  address : JSON := .null
  website : JSON := .null
  email : JSON := .null
  start_date : JSON := .null
  end_date : JSON := .null

/-- Embeds the `DivisionRecord` dataclass (src/main.py:36-42); every
field is assigned through `str(...)`, so the fields are strings. -/
structure DivisionRecord where
  description : String := ""
  entry_fee : String := ""
  event_division_assignment_id : String := ""
  event_id : String := ""
  maximum_teams : String := ""
deriving DecidableEq

/-- Embeds the per-item error dictionaries built in `AESScraper.run`
(src/main.py:206-212 and 224-230). -/
structure ErrorRecord where
  where_ : String
  message : String
  item : String

/-- Base of the event detail endpoint (src/main.py:92). -/
def eventDetailBase : String :=
  "https://www.advancedeventsystems.com/api/landing/events/"

/-- Base of the scheduler-fallback detail endpoint (src/main.py:96). -/
def schedulerDetailBase : String :=
  "https://www.advancedeventsystems.com/api/landing/events/scheduler/"

/-- Base of the public event page used for `event_url`
(src/main.py:143). -/
def eventPageBase : String :=
  "https://www.advancedeventsystems.com/events/"

/-- Python `data.get(k1) or data.get(k2) or ""` with short-circuit
evaluation: the second lookup only runs when the first value is falsy
(src/main.py:153). -/
def pyGetOrGet (data : JSON) (k1 k2 : String) : Except PyErr JSON := do
  let a ← pyGet data k1
  if truthy a then pure a
  else do
    let b ← pyGet data k2
    pure (pyOr b (JSON.str ""))

/-- Embeds `AESScraper.parse_event_api` (src/main.py:139-169): one raw
event payload to an `EventRecord`, each Python expression translated
through the JSON helpers; any `AttributeError` raised by a `.get` on a
non-dict propagates as an `Except.error`. -/
def parse_event_api (data : JSON) : Except PyErr EventRecord := do
  let eventIdJ ← pyGet data "eventId"
  let event_id := pyStr (pyOr eventIdJ (JSON.str ""))
  let event_url := if event_id = "" then "" else eventPageBase ++ event_id
  let nameJ ← pyGet data "name"
  let name := pyOr nameJ (JSON.str "")
  let affJ ← pyGet data "affiliation"
  let affDescJ ← pyGet (pyOr affJ (JSON.obj [])) "description"
  let aff := pyOr affDescJ (JSON.str "")
  let etJ ← pyGet data "eventType"
  let etDescJ ← pyGet (pyOr etJ (JSON.obj [])) "description"
  let et := pyOr etDescJ (JSON.str "")
  let tournament_type :=
    if truthy aff || truthy et then pyStrip (pyStr aff ++ " " ++ pyStr et) else ""
  let host ← pyGetOrGet data "hostName" "bossOrganizationName"
  let locJ ← pyGet data "locationName"
  let location := pyOr locJ (JSON.str "")
  let addrJ ← pyGet data "address"
  let addr := pyOr addrJ (JSON.obj [])
  let line1J ← pyGet addr "line1"
  let line1 := pyOr line1J (JSON.str "")
  let cityJ ← pyGet addr "city"
  let city := pyOr cityJ (JSON.str "")
  let stateJ ← pyGet addr "state"
  let abbrJ ← pyGet (pyOr stateJ (JSON.obj [])) "abbreviation"
  let state_abbr := pyOr abbrJ (JSON.str "")
  let zipJ ← pyGet addr "zip"
  let zip_code := pyOr zipJ (JSON.str "")
  let address :=
    pyRstripCS (pyStrip
      (pyStr line1 ++ "\n" ++ pyStr city ++ ", " ++ pyStr state_abbr ++ " " ++ pyStr zip_code))
  let websiteJ ← pyGet data "website"
  let website := pyOr websiteJ (JSON.str "")
  let emailJ ← pyGet data "email"
  let email := pyOr emailJ (JSON.str "")
  let sdJ ← pyGet data "startDate"
  let start_date ← fmt_date sdJ
  let edJ ← pyGet data "endDate"
  let end_date ← fmt_date edJ
  pure
    { event_id := JSON.str event_id
      event_url := JSON.str event_url
      name := name
      tournament_type := JSON.str tournament_type
      host := host
      location := location
      address := JSON.str address
      website := website
      email := email
      start_date := JSON.str start_date
      end_date := JSON.str end_date }

/-- Embeds `AESScraper.parse_division_api` (src/main.py:171-183): one raw
division payload to a `DivisionRecord`; every field goes through
`str(data.get(k) or default)`. -/
def parse_division_api (data : JSON) : Except PyErr DivisionRecord := do
  let eventIdJ ← pyGet data "eventId"
  let descJ ← pyGet data "description"
  let feeJ ← pyGet data "entryFee"
  let assignJ ← pyGet data "eventDivisionAssignmentId"
  let maxJ ← pyGet data "maximumTeams"
  pure
    { description := pyStr (pyOr descJ (JSON.str ""))
      entry_fee := pyStr (pyOr feeJ (JSON.str "0"))
      event_division_assignment_id := pyStr (pyOr assignJ (JSON.str ""))
      event_id := pyStr (pyOr eventIdJ (JSON.str ""))
      maximum_teams := pyStr (pyOr maxJ (JSON.str "")) }

/-- Python `int()` applied to a decoded JSON value: integers pass
through, booleans coerce, strings parse (optional sign and digits, with
surrounding whitespace) or raise `ValueError`; other values raise
`TypeError`. -/
def pyInt : JSON → Except PyErr Int
  | .num n => .ok n
  | .bool b => .ok (if b then 1 else 0)
  | .str s =>
    let cs := (s.toList.dropWhile isPySpace).reverse.dropWhile isPySpace |>.reverse
    match cs with
    | '-' :: ds =>
      match parseNatExact ds with
      | some n => .ok (-(n : Int))
      | none => .error (.valueError s)
    | '+' :: ds =>
      match parseNatExact ds with
      | some n => .ok (n : Int)
      | none => .error (.valueError s)
    | ds =>
      match parseNatExact ds with
      | some n => .ok (n : Int)
      | none => .error (.valueError s)
  | .null => .error (.typeError "int() argument NoneType")
  | .arr _ => .error (.typeError "int() argument list")
  | .obj _ => .error (.typeError "int() argument dict")

/-- Python `for d in divisions` over a decoded JSON value: lists iterate
their elements, strings their characters, dicts their keys; the remaining
values are not iterable. -/
def pyIterate : JSON → Except PyErr (List JSON)
  | .arr xs => .ok xs
  | .str s => .ok (s.toList.map (fun c => JSON.str (String.mk [c])))
  | .obj kvs => .ok (kvs.map (fun kv => JSON.str kv.1))
  | .null => .error (.typeError "NoneType is not iterable")
  | .bool _ => .error (.typeError "bool is not iterable")
  | .num _ => .error (.typeError "int is not iterable")

/-- The URL-resolution prefix of `AESScraper._fetch_one_event`
(src/main.py:89-96), lifted out of the fetch so the endpoint choice can
be stated without a network: `item["eventId"]` (a `KeyError` if the key
is absent), the event-detail URL, overridden by the scheduler URL built
from `item["eventSchedulerId"]` when the event id is `None`. -/
def resolveEventURL (item : JSON) : Except PyErr String := do
  let event_id ← pyIndex item "eventId"
  let url := eventDetailBase ++ pyStr event_id
  if isNone event_id then do
    let event_scheduler_id ← pyIndex item "eventSchedulerId"
    pure (schedulerDetailBase ++ pyStr event_scheduler_id)
  else
    pure url

/-- Embeds `AESScraper._fetch_one_event` (src/main.py:89-101) against an
abstract network `net` mapping a request URL to the decoded JSON body (or
the transport/HTTP/decode failure raised by `get`, `raise_for_status` or
`.json()`). -/
def fetch_one_event (net : String → Except PyErr JSON) (item : JSON) :
    Except PyErr EventRecord := do
  let url ← resolveEventURL item
  let data ← net url
  parse_event_api data

/-- The request-or-not prefix of `AESScraper._fetch_one_division`
(src/main.py:103-108), lifted out of the fetch: `event.get("eventId")`,
the early `return []` (encoded as `none`, no URL requested) when it is
`None`, otherwise the division-list URL built with `int(event_id)`. -/
def divisionRequestURL (event : JSON) : Except PyErr (Option String) := do
  let event_id ← pyGet event "eventId"
  if isNone event_id then
    pure none
  else do
    let eid ← pyInt event_id
    pure (some (eventDetailBase ++ toString eid ++ "/divisions"))

/-- Embeds `AESScraper._fetch_one_division` (src/main.py:103-119) against
an abstract network `net`: no request and an empty list when the item has
no event id; otherwise one GET, the `value`-wrapped or bare array
accepted, a falsy payload replaced by `[]`, and each element normalized
with `parse_division_api`. -/
def fetch_one_division (net : String → Except PyErr JSON) (event : JSON) :
    Except PyErr (List DivisionRecord) := do
  match ← divisionRequestURL event with
  | none => pure []
  | some url =>
    let payload ← net url
    let unwrapped :=
      match payload with
      | .obj kvs =>
        match jlookup kvs "value" with
        | some v => v
        | none => payload
      | _ => payload
    let divisions := pyOr unwrapped (JSON.arr [])
    let elems ← pyIterate divisions
    elems.mapM parse_division_api

/-- Builds the error dictionary appended by both phases of
`AESScraper.run` (src/main.py:206-212, 224-230): the fixed phase tag, the
exception's `repr`, and the offending item serialized and truncated to
500 characters. -/
def errorRecordOf (e : PyErr) (item : JSON) : ErrorRecord :=
  { where_ := "detail", message := pyErrRepr e, item := pyTruncate 500 (jsonDumps item) }

/-- Embeds the event-phase collection loop of `AESScraper.run`
(src/main.py:214-230) over the items in completion order: each completed
future either appends its record to the success list or its converted
exception to the error list. -/
def eventPhase (fetch : JSON → Except PyErr EventRecord) :
    List JSON → List EventRecord × List ErrorRecord
  | [] => ([], [])
  | it :: rest =>
    let r := eventPhase fetch rest
    match fetch it with
    | .ok rec => (rec :: r.1, r.2)
    | .error e => (r.1, errorRecordOf e it :: r.2)

/-- Embeds the division-phase collection loop of `AESScraper.run`
(src/main.py:195-212) over the items in completion order: a successful
non-empty list extends the record list (`if recs:` skips empty results),
a failure appends a converted error. -/
def divisionPhase (fetch : JSON → Except PyErr (List DivisionRecord)) :
    List JSON → List DivisionRecord × List ErrorRecord
  | [] => ([], [])
  | it :: rest =>
    let r := divisionPhase fetch rest
    match fetch it with
    | .ok recs => if recs.isEmpty then r else (recs ++ r.1, r.2)
    | .error e => (r.1, errorRecordOf e it :: r.2)

/-- A constant network that answers every request with JSON `null`, used
to instantiate theorems at concrete inputs. -/
def constNullNet : String → Except PyErr JSON := fun _ => .ok JSON.null

/-- A constant network that answers every request with the empty JSON
array. -/
def constEmptyArrNet : String → Except PyErr JSON := fun _ => .ok (JSON.arr [])

/-- A nested-object field is benign for `parse_event_api`: falsy (so the
`or \x7b\x7d` fallback applies) or itself an object. -/
def fieldObjOK (v : JSON) : Bool := !truthy v || isObj v

/-- A date field is benign for `_fmt_date`: falsy or a string. -/
def fieldStrOK (v : JSON) : Bool := !truthy v || isStr v

/-- The event payloads on which `parse_event_api` cannot raise: an object
whose `affiliation`, `eventType` and `address` values (and the `state`
value inside the effective address object) are each falsy or an object,
and whose `startDate` and `endDate` values are each falsy or a string. -/
def eventPayloadWellTyped (data : JSON) : Bool :=
  match data with
  | .obj kvs =>
    fieldObjOK ((jlookup kvs "affiliation").getD JSON.null) &&
    fieldObjOK ((jlookup kvs "eventType").getD JSON.null) &&
    fieldObjOK ((jlookup kvs "address").getD JSON.null) &&
    (match pyOr ((jlookup kvs "address").getD JSON.null) (JSON.obj []) with
     | .obj akvs => fieldObjOK ((jlookup akvs "state").getD JSON.null)
     | _ => true) &&
    fieldStrOK ((jlookup kvs "startDate").getD JSON.null) &&
    fieldStrOK ((jlookup kvs "endDate").getD JSON.null)
  | _ => false

/-- The record `parse_event_api` produces when every source field is
missing or null: every field the empty string. -/
def emptyEventRecord : EventRecord :=
  { event_id := .str "", event_url := .str "", name := .str "",
    tournament_type := .str "", host := .str "", location := .str "",
    address := .str "", website := .str "", email := .str "",
    start_date := .str "", end_date := .str "" }

/-- An event payload carrying every consulted field explicitly null. -/
def allNullPayload : JSON :=
  JSON.obj
    [("eventId", .null), ("name", .null), ("affiliation", .null),
     ("eventType", .null), ("hostName", .null), ("bossOrganizationName", .null),
     ("locationName", .null), ("address", .null), ("website", .null),
     ("email", .null), ("startDate", .null), ("endDate", .null)]

/-- The address example from the specification: full street, city, state
abbreviation and zip. -/
def fullAddressPayload : JSON :=
  JSON.obj
    [("address",
      JSON.obj
        [("line1", .str "123 Main"), ("city", .str "Springfield"),
         ("state", JSON.obj [("abbreviation", .str "IL")]),
         ("zip", .str "62704")])]

/-- The record `parse_division_api` produces when every source field is
absent or falsy: empty strings, except the `"0"` entry-fee default. -/
def defaultDivisionRecord : DivisionRecord :=
  { description := "", entry_fee := "0", event_division_assignment_id := "",
    event_id := "", maximum_teams := "" }

theorem except_bind_ok {α β : Type} {e : Except PyErr α} {f : α → Except PyErr β} {b : β}
    (h : (e >>= f) = Except.ok b) : ∃ a, e = Except.ok a ∧ f a = Except.ok b := by
  cases e with
  | error err => exact absurd h (by simp [Bind.bind, Except.bind])
  | ok a => exact ⟨a, rfl, h⟩

theorem bind_ok_red {α β : Type} (a : α) (f : α → Except PyErr β) :
    ((Except.ok a : Except PyErr α) >>= f) = f a := rfl

theorem pyGet_obj (kvs : List (String × JSON)) (k : String) :
    pyGet (JSON.obj kvs) k = .ok ((jlookup kvs k).getD JSON.null) := rfl

theorem head?_dropWhile_false {p : Char → Bool} {l : List Char} {c : Char}
    (h : (l.dropWhile p).head? = some c) : p c = false := by
  induction l with
  | nil => simp [List.dropWhile] at h
  | cons x xs ih =>
    by_cases hx : p x
    · exact ih (by simpa [List.dropWhile, hx] using h)
    · rw [List.dropWhile_cons_of_neg hx] at h
      simp only [List.head?_cons, Option.some.injEq] at h
      subst h
      simpa using hx

theorem pyRstripCS_getLast {s : String} {c : Char}
    (h : (pyRstripCS s).toList.getLast? = some c) : c ≠ ',' ∧ c ≠ ' ' := by
  have hl : (pyRstripCS s).toList
      = (s.toList.reverse.dropWhile (fun c => c = ',' || c = ' ')).reverse := rfl
  rw [hl, List.getLast?_reverse] at h
  have := head?_dropWhile_false h
  simp only [Bool.or_eq_false_iff, decide_eq_false_iff_not] at this
  exact this

theorem eventPhase_records (fetch : JSON → Except PyErr EventRecord) (l : List JSON) :
    (eventPhase fetch l).1
      = l.filterMap (fun it =>
          match fetch it with
          | .ok rec => some rec
          | .error _ => none) := by
  induction l with
  | nil => rfl
  | cons it rest ih =>
    rw [eventPhase, List.filterMap_cons]
    cases hf : fetch it <;> simp [hf, ih]

theorem eventPhase_errors (fetch : JSON → Except PyErr EventRecord) (l : List JSON) :
    (eventPhase fetch l).2
      = l.filterMap (fun it =>
          match fetch it with
          | .ok _ => none
          | .error e => some (errorRecordOf e it)) := by
  induction l with
  | nil => rfl
  | cons it rest ih =>
    rw [eventPhase, List.filterMap_cons]
    cases hf : fetch it <;> simp [hf, ih]

theorem eventPhase_length (fetch : JSON → Except PyErr EventRecord) (l : List JSON) :
    (eventPhase fetch l).1.length + (eventPhase fetch l).2.length = l.length := by
  induction l with
  | nil => rfl
  | cons it rest ih =>
    rw [eventPhase]
    cases hf : fetch it <;> simp [hf] <;> omega

theorem divisionPhase_records (fetch : JSON → Except PyErr (List DivisionRecord))
    (l : List JSON) :
    (divisionPhase fetch l).1
      = (l.map (fun it =>
          match fetch it with
          | .ok recs => recs
          | .error _ => [])).flatten := by
  induction l with
  | nil => rfl
  | cons it rest ih =>
    rw [divisionPhase, List.map_cons, List.flatten_cons]
    cases hf : fetch it with
    | ok recs =>
      by_cases he : recs.isEmpty
      · have : recs = [] := by simpa [List.isEmpty_iff] using he
        simp [hf, he, this, ih]
      · simp [hf, he, ih]
    | error e => simp [hf, ih]

theorem divisionPhase_errors (fetch : JSON → Except PyErr (List DivisionRecord))
    (l : List JSON) :
    (divisionPhase fetch l).2
      = l.filterMap (fun it =>
          match fetch it with
          | .ok _ => none
          | .error e => some (errorRecordOf e it)) := by
  induction l with
  | nil => rfl
  | cons it rest ih =>
    rw [divisionPhase, List.filterMap_cons]
    cases hf : fetch it with
    | ok recs =>
      by_cases he : recs.isEmpty <;> simp [hf, he, ih]
    | error e => simp [hf, ih]

theorem pyOr_obj_of_fieldObjOK {v : JSON} (h : fieldObjOK v = true) :
    ∃ kvs, pyOr v (JSON.obj []) = JSON.obj kvs := by
  rcases (by simpa [fieldObjOK] using h : truthy v = false ∨ isObj v = true) with ht | hobj
  · exact ⟨[], by simp [pyOr, ht]⟩
  · cases v with
    | obj kvs =>
      cases ht : truthy (JSON.obj kvs) with
      | false => exact ⟨[], by simp [pyOr, ht]⟩
      | true => exact ⟨kvs, by simp [pyOr, ht]⟩
    | null => simp [isObj] at hobj
    | bool b => simp [isObj] at hobj
    | num n => simp [isObj] at hobj
    | str s => simp [isObj] at hobj
    | arr xs => simp [isObj] at hobj

theorem fmt_date_ok_of_fieldStrOK {v : JSON} (h : fieldStrOK v = true) :
    ∃ out, fmt_date v = .ok out := by
  rcases (by simpa [fieldStrOK] using h : truthy v = false ∨ isStr v = true) with ht | hstr
  · exact ⟨"", by simp [fmt_date, ht]⟩
  · cases v with
    | str s =>
      cases ht : truthy (JSON.str s) with
      | false => exact ⟨"", by simp [fmt_date, ht]⟩
      | true =>
        cases hf : fromisoformat (stripZ s) with
        | none => exact ⟨"", by simp [fmt_date, ht, hf]⟩
        | some d => exact ⟨strftimeMDY d, by simp [fmt_date, ht, hf]⟩
    | null => simp [isStr] at hstr
    | bool b => simp [isStr] at hstr
    | num n => simp [isStr] at hstr
    | arr xs => simp [isStr] at hstr
    | obj kvs => simp [isStr] at hstr

theorem parse_event_api_ok_inv {data : JSON} {rec : EventRecord}
    (h : parse_event_api data = Except.ok rec) :
    ∃ kvs, data = JSON.obj kvs ∧
      rec.event_id
        = JSON.str (pyStr (pyOr ((jlookup kvs "eventId").getD JSON.null) (JSON.str ""))) ∧
      rec.event_url
        = JSON.str
            (if pyStr (pyOr ((jlookup kvs "eventId").getD JSON.null) (JSON.str "")) = ""
             then ""
             else eventPageBase
               ++ pyStr (pyOr ((jlookup kvs "eventId").getD JSON.null) (JSON.str ""))) ∧
      ∃ t, rec.address = JSON.str (pyRstripCS (pyStrip t)) := by
  cases data with
  | obj kvs =>
    refine ⟨kvs, rfl, ?_⟩
    simp only [parse_event_api] at h
    obtain ⟨a1, ha1, h⟩ := except_bind_ok h
    simp only [pyGet_obj, Except.ok.injEq] at ha1
    subst ha1
    obtain ⟨a2, ha2, h⟩ := except_bind_ok h
    obtain ⟨a3, ha3, h⟩ := except_bind_ok h
    obtain ⟨a4, ha4, h⟩ := except_bind_ok h
    obtain ⟨a5, ha5, h⟩ := except_bind_ok h
    obtain ⟨a6, ha6, h⟩ := except_bind_ok h
    obtain ⟨a7, ha7, h⟩ := except_bind_ok h
    obtain ⟨a8, ha8, h⟩ := except_bind_ok h
    obtain ⟨a9, ha9, h⟩ := except_bind_ok h
    obtain ⟨a10, ha10, h⟩ := except_bind_ok h
    obtain ⟨a11, ha11, h⟩ := except_bind_ok h
    obtain ⟨a12, ha12, h⟩ := except_bind_ok h
    obtain ⟨a13, ha13, h⟩ := except_bind_ok h
    obtain ⟨a14, ha14, h⟩ := except_bind_ok h
    obtain ⟨a15, ha15, h⟩ := except_bind_ok h
    obtain ⟨a16, ha16, h⟩ := except_bind_ok h
    obtain ⟨a17, ha17, h⟩ := except_bind_ok h
    obtain ⟨a18, ha18, h⟩ := except_bind_ok h
    obtain ⟨a19, ha19, h⟩ := except_bind_ok h
    obtain ⟨a20, ha20, h⟩ := except_bind_ok h
    simp only [pure, Except.pure, Except.ok.injEq] at h
    subst h
    exact ⟨rfl, rfl, ⟨_, rfl⟩⟩
  | null => simp [parse_event_api, pyGet, Bind.bind, Except.bind] at h
  | bool b => simp [parse_event_api, pyGet, Bind.bind, Except.bind] at h
  | num n => simp [parse_event_api, pyGet, Bind.bind, Except.bind] at h
  | str s => simp [parse_event_api, pyGet, Bind.bind, Except.bind] at h
  | arr xs => simp [parse_event_api, pyGet, Bind.bind, Except.bind] at h

/-- C4: the date formatter maps `"2024-03-01T00:00:00Z"` to
`"03/01/2024"`; the empty string, `null`, and any string the ISO parse
rejects map to the empty string; and on every string-or-null input it
returns a value and never raises. -/
theorem fmt_date_behaviour :
    fmt_date (JSON.str "2024-03-01T00:00:00Z") = .ok "03/01/2024" ∧
    fmt_date (JSON.str "") = .ok "" ∧
    fmt_date JSON.null = .ok "" ∧
    (∀ s : String, fromisoformat (stripZ s) = none → fmt_date (JSON.str s) = .ok "") ∧
    (∀ s : String, ∃ out, fmt_date (JSON.str s) = .ok out) := by
  refine ⟨rfl, rfl, rfl, ?_, ?_⟩
  · intro s hnone
    cases ht : truthy (JSON.str s) with
    | false => simp [fmt_date, ht]
    | true => simp [fmt_date, ht, hnone]
  · intro s
    exact fmt_date_ok_of_fieldStrOK (by simp [fieldStrOK, isStr])

/-- Witness for C4 at a concrete non-ISO string. -/
theorem fmt_date_behaviour_witness : fmt_date (JSON.str "not-a-date") = .ok "" :=
  fmt_date_behaviour.2.2.2.1 "not-a-date" rfl

/-- C8: for every raw event payload accepted by `parse_event_api`, the
produced record's `event_url` is the empty string exactly when its
`event_id` is the empty string. -/
theorem event_url_empty_iff_event_id_empty (data : JSON) (rec : EventRecord)
    (h : parse_event_api data = Except.ok rec) :
    rec.event_url = JSON.str "" ↔ rec.event_id = JSON.str "" := by
  obtain ⟨kvs, -, hid, hurl, -⟩ := parse_event_api_ok_inv h
  rw [hid, hurl]
  by_cases hse : pyStr (pyOr ((jlookup kvs "eventId").getD JSON.null) (JSON.str "")) = ""
  · simp [hse]
  · simp only [if_neg hse, JSON.str.injEq]
    have happ :
        eventPageBase ++ pyStr (pyOr ((jlookup kvs "eventId").getD JSON.null) (JSON.str ""))
          ≠ "" := by
      intro hcon
      have h1 := congrArg String.length hcon
      have h0 : String.length "" = 0 := rfl
      rw [String.length_append, h0] at h1
      have h2 : 0 < eventPageBase.length := by decide
      omega
    exact ⟨fun hcon => absurd hcon happ, fun hcon => absurd hcon hse⟩

/-- Witness for C8 at the empty payload. -/
theorem event_url_empty_iff_event_id_empty_witness :
    emptyEventRecord.event_url = JSON.str "" ↔ emptyEventRecord.event_id = JSON.str "" :=
  event_url_empty_iff_event_id_empty (JSON.obj []) emptyEventRecord rfl

/-- C7: the specification's full-address payload derives
`"123 Main\nSpringfield, IL 62704"`, an all-missing address derives the
empty string, and for every accepted payload the derived address string
never ends in a comma or a space (the trailing `", "` is trimmed). -/
theorem address_derivation (data : JSON) (rec : EventRecord)
    (h : parse_event_api data = Except.ok rec) :
    (parse_event_api fullAddressPayload).map EventRecord.address
        = Except.ok (JSON.str "123 Main\nSpringfield, IL 62704") ∧
    (parse_event_api (JSON.obj [])).map EventRecord.address = Except.ok (JSON.str "") ∧
    ∃ a, rec.address = JSON.str a ∧
      ∀ c, a.toList.getLast? = some c → c ≠ ',' ∧ c ≠ ' ' := by
  refine ⟨rfl, rfl, ?_⟩
  obtain ⟨kvs, -, -, -, t, haddr⟩ := parse_event_api_ok_inv h
  exact ⟨_, haddr, fun c hc => pyRstripCS_getLast hc⟩

/-- Witness for C7 at the empty payload. -/
theorem address_derivation_witness :
    ∃ a, emptyEventRecord.address = JSON.str a ∧
      ∀ c, a.toList.getLast? = some c → c ≠ ',' ∧ c ≠ ' ' :=
  (address_derivation (JSON.obj []) emptyEventRecord rfl).2.2

/-- C1: the event phase of `run` yields exactly one outcome per catalog
item for every completion order of the futures: the successes are
collected in order, each failing item is converted to an `ErrorRecord`
appended to the phase's error list (no failure aborts the phase), and
the record count plus the error count equals the item count. -/
theorem event_phase_one_outcome_per_item (net : String → Except PyErr JSON)
    (items completed : List JSON) (hperm : completed.Perm items) :
    (eventPhase (fetch_one_event net) completed).1
      = completed.filterMap (fun it =>
          match fetch_one_event net it with
          | .ok rec => some rec
          | .error _ => none) ∧
    (eventPhase (fetch_one_event net) completed).2
      = completed.filterMap (fun it =>
          match fetch_one_event net it with
          | .ok _ => none
          | .error e => some (errorRecordOf e it)) ∧
    (eventPhase (fetch_one_event net) completed).1.length
      + (eventPhase (fetch_one_event net) completed).2.length = items.length := by
  refine ⟨eventPhase_records _ _, eventPhase_errors _ _, ?_⟩
  rw [eventPhase_length]
  exact hperm.length_eq

/-- Witness for C1: one keyless item fails its fetch, and the phase
still accounts for it. -/
theorem event_phase_one_outcome_per_item_witness :
    (eventPhase (fetch_one_event constNullNet) [JSON.obj []]).1.length
      + (eventPhase (fetch_one_event constNullNet) [JSON.obj []]).2.length
      = [JSON.obj []].length :=
  (event_phase_one_outcome_per_item constNullNet [JSON.obj []] [JSON.obj []]
    (List.Perm.refl _)).2.2

/-- C9: in the division phase of `run`, the record list is the
concatenation of the per-item success lists (an empty success list
contributes nothing, by the `if recs:` guard), the error list collects
exactly the failures, and consequently the event-phase partition
property `records + errors = items` fails for the division phase — shown
at a one-item run whose division list is empty. -/
theorem division_phase_concatenates_successes (net : String → Except PyErr JSON)
    (completed : List JSON) :
    (divisionPhase (fetch_one_division net) completed).1
      = (completed.map (fun it =>
          match fetch_one_division net it with
          | .ok recs => recs
          | .error _ => [])).flatten ∧
    (divisionPhase (fetch_one_division net) completed).2
      = completed.filterMap (fun it =>
          match fetch_one_division net it with
          | .ok _ => none
          | .error e => some (errorRecordOf e it)) ∧
    (divisionPhase (fetch_one_division constEmptyArrNet)
          [JSON.obj [("eventId", JSON.num 1)]]).1.length
        + (divisionPhase (fetch_one_division constEmptyArrNet)
          [JSON.obj [("eventId", JSON.num 1)]]).2.length
      ≠ [JSON.obj [("eventId", JSON.num 1)]].length := by
  refine ⟨divisionPhase_records _ _, divisionPhase_errors _ _, ?_⟩
  decide

/-- C3: a catalog item whose `eventId` is `None` makes
`_fetch_one_division` return the empty list immediately: no request URL
is ever formed, and the result is `[]` for every network behaviour. -/
theorem fetch_divisions_no_event_id (event : JSON)
    (h : pyGet event "eventId" = .ok JSON.null) :
    divisionRequestURL event = .ok none ∧
    ∀ net, fetch_one_division net event = .ok [] := by
  have hurl : divisionRequestURL event = .ok none := by
    rw [divisionRequestURL, h]
    rfl
  refine ⟨hurl, fun net => ?_⟩
  rw [fetch_one_division, hurl]
  rfl

/-- Witness for C3 at an item with no `eventId` key. -/
theorem fetch_divisions_no_event_id_witness :
    divisionRequestURL (JSON.obj []) = .ok none ∧
    fetch_one_division constNullNet (JSON.obj []) = .ok [] :=
  ⟨(fetch_divisions_no_event_id (JSON.obj []) rfl).1,
   (fetch_divisions_no_event_id (JSON.obj []) rfl).2 constNullNet⟩

theorem pyGetOrGet_obj_ok (kvs : List (String × JSON)) (k1 k2 : String) :
    ∃ w, pyGetOrGet (JSON.obj kvs) k1 k2 = .ok w := by
  cases ht : truthy ((jlookup kvs k1).getD JSON.null) with
  | true =>
    refine ⟨(jlookup kvs k1).getD JSON.null, ?_⟩
    rw [pyGetOrGet]
    simp [pyGet_obj, bind_ok_red, ht, pure, Except.pure]
  | false =>
    refine ⟨pyOr ((jlookup kvs k2).getD JSON.null) (JSON.str ""), ?_⟩
    rw [pyGetOrGet]
    simp [pyGet_obj, bind_ok_red, ht, pure, Except.pure]

/-- C6 counterexample: an item that carries a scheduler identifier but
no `eventId` key is not routed to the scheduler endpoint as the claim
states; `item["eventId"]` raises `KeyError` and the fetch fails. -/
theorem fetch_event_scheduler_only_fails :
    resolveEventURL (JSON.obj [("eventSchedulerId", JSON.num 5)])
      = .error (PyErr.keyError "eventId") ∧
    fetch_one_event constNullNet (JSON.obj [("eventSchedulerId", JSON.num 5)])
      = .error (PyErr.keyError "eventId") :=
  ⟨rfl, rfl⟩

/-- C6 (amended): the fetch uses the event-id endpoint when the item
maps `eventId` to a non-null value; when `eventId` is present and null
it uses the scheduler endpoint built from `eventSchedulerId` (a
`KeyError` if that key is absent); an item without the `eventId` key
fails with `KeyError` instead of falling back; and a URL-resolution
failure makes the whole per-item fetch fail with that error for every
network behaviour. -/
theorem fetch_event_endpoint_resolution :
    (∀ kvs v, jlookup kvs "eventId" = some v → isNone v = false →
        resolveEventURL (JSON.obj kvs) = .ok (eventDetailBase ++ pyStr v)) ∧
    (∀ kvs s, jlookup kvs "eventId" = some JSON.null →
        jlookup kvs "eventSchedulerId" = some s →
        resolveEventURL (JSON.obj kvs) = .ok (schedulerDetailBase ++ pyStr s)) ∧
    (∀ kvs, jlookup kvs "eventId" = some JSON.null →
        jlookup kvs "eventSchedulerId" = none →
        resolveEventURL (JSON.obj kvs) = .error (PyErr.keyError "eventSchedulerId")) ∧
    (∀ kvs, jlookup kvs "eventId" = none →
        resolveEventURL (JSON.obj kvs) = .error (PyErr.keyError "eventId")) ∧
    (∀ item e, resolveEventURL item = .error e →
        ∀ net, fetch_one_event net item = .error e) := by
  refine ⟨?_, ?_, ?_, ?_, ?_⟩
  · intro kvs v hv hnn
    rw [resolveEventURL]
    simp [pyIndex, hv, hnn, Bind.bind, Except.bind, pure, Except.pure]
  · intro kvs s hv hs
    rw [resolveEventURL]
    simp [pyIndex, hv, hs, isNone, Bind.bind, Except.bind, pure, Except.pure]
  · intro kvs hv hs
    rw [resolveEventURL]
    simp [pyIndex, hv, hs, isNone, Bind.bind, Except.bind, pure, Except.pure]
  · intro kvs hv
    rw [resolveEventURL]
    simp [pyIndex, hv, Bind.bind, Except.bind]
  · intro item e h net
    rw [fetch_one_event, h]
    rfl

/-- Witness for C6 at concrete items for both endpoint branches. -/
theorem fetch_event_endpoint_resolution_witness :
    resolveEventURL (JSON.obj [("eventId", JSON.num 7)])
      = .ok (eventDetailBase ++ pyStr (JSON.num 7)) ∧
    resolveEventURL (JSON.obj [("eventId", JSON.null), ("eventSchedulerId", JSON.num 5)])
      = .ok (schedulerDetailBase ++ pyStr (JSON.num 5)) :=
  ⟨fetch_event_endpoint_resolution.1 _ _ rfl rfl,
   fetch_event_endpoint_resolution.2.1 _ _ rfl rfl⟩

/-- C2 counterexample: `parse_event_api` is not total over raw JSON
payloads — a payload whose `affiliation` is the (truthy, non-object)
number 1 makes `(data.get("affiliation") or \x7b\x7d).get("description")`
raise `AttributeError`. -/
theorem normalize_event_raises_on_typed_payload :
    parse_event_api (JSON.obj [("affiliation", JSON.num 1)])
      = .error (PyErr.attributeError "get") := rfl

/-- C2 (amended): `parse_event_api` never raises on payloads whose
nested-object fields and date fields are well typed (absent, null,
falsy, or of the expected shape); on such payloads every missing or
null source field resolves to the empty string — shown at the empty
payload and at a payload with every consulted field null. -/
theorem normalize_event_total_on_well_typed :
    (∀ data, eventPayloadWellTyped data = true →
        ∃ rec, parse_event_api data = .ok rec) ∧
    parse_event_api (JSON.obj []) = .ok emptyEventRecord ∧
    parse_event_api allNullPayload = .ok emptyEventRecord := by
  refine ⟨?_, rfl, rfl⟩
  intro data hwt
  cases data with
  | obj kvs =>
    simp only [eventPayloadWellTyped, Bool.and_eq_true] at hwt
    obtain ⟨⟨⟨⟨⟨haff, het⟩, haddr⟩, hstate⟩, hsd⟩, hed⟩ := hwt
    obtain ⟨akvs, hak⟩ := pyOr_obj_of_fieldObjOK haff
    obtain ⟨ekvs, hek⟩ := pyOr_obj_of_fieldObjOK het
    obtain ⟨dkvs, hdk⟩ := pyOr_obj_of_fieldObjOK haddr
    rw [hdk] at hstate
    obtain ⟨skvs, hsk⟩ := pyOr_obj_of_fieldObjOK (show fieldObjOK
      ((jlookup dkvs "state").getD JSON.null) = true from hstate)
    obtain ⟨hw, hhw⟩ := pyGetOrGet_obj_ok kvs "hostName" "bossOrganizationName"
    obtain ⟨o1, ho1⟩ := fmt_date_ok_of_fieldStrOK hsd
    obtain ⟨o2, ho2⟩ := fmt_date_ok_of_fieldStrOK hed
    simp only [parse_event_api, pyGet_obj, bind_ok_red]
    rw [hak]
    simp only [pyGet_obj, bind_ok_red]
    rw [hek]
    simp only [pyGet_obj, bind_ok_red]
    rw [hhw]
    simp only [bind_ok_red]
    rw [hdk]
    simp only [pyGet_obj, bind_ok_red]
    rw [hsk]
    simp only [pyGet_obj, bind_ok_red]
    rw [ho1]
    simp only [bind_ok_red]
    rw [ho2]
    simp only [bind_ok_red]
    exact ⟨_, rfl⟩
  | null => simp [eventPayloadWellTyped] at hwt
  | bool b => simp [eventPayloadWellTyped] at hwt
  | num n => simp [eventPayloadWellTyped] at hwt
  | str s => simp [eventPayloadWellTyped] at hwt
  | arr xs => simp [eventPayloadWellTyped] at hwt

/-- Witness for C2 at a payload carrying only a name. -/
theorem normalize_event_total_on_well_typed_witness :
    ∃ rec, parse_event_api (JSON.obj [("name", JSON.str "x")]) = .ok rec :=
  normalize_event_total_on_well_typed.1 (JSON.obj [("name", JSON.str "x")]) rfl

/-- C5 counterexample: `entryFee` present as the empty string is
normalized to `"0"`, not to its stringified value (the empty string). -/
theorem division_entry_fee_falsy_counterexample :
    ∃ rec, parse_division_api (JSON.obj [("entryFee", JSON.str "")]) = .ok rec ∧
      rec.entry_fee ≠ pyStr (JSON.str "") := by
  refine ⟨_, rfl, ?_⟩
  decide

/-- C5 (amended): `entry_fee` is the stringified source value only when
`entryFee` is present and truthy; an absent — or present but falsy —
`entryFee` yields the default `"0"`. -/
theorem division_entry_fee_normalization (kvs : List (String × JSON)) :
    ∃ rec, parse_division_api (JSON.obj kvs) = .ok rec ∧
      rec.entry_fee
        = (match jlookup kvs "entryFee" with
           | some v => if truthy v then pyStr v else "0"
           | none => "0") := by
  refine ⟨_, rfl, ?_⟩
  cases hl : jlookup kvs "entryFee" with
  | none => rfl
  | some v => cases ht : truthy v <;> simp [pyOr, ht, pyStr]

/-- C10: a present-but-falsy `entryFee` (the number 0, the empty string,
false, or null) normalizes to `"0"`, exactly as an absent field does. -/
theorem division_entry_fee_falsy_as_absent
    (kvs kvs' : List (String × JSON)) (v : JSON) (rec rec' : DivisionRecord)
    (hv : jlookup kvs "entryFee" = some v) (hfalsy : truthy v = false)
    (h : parse_division_api (JSON.obj kvs) = .ok rec)
    (habsent : jlookup kvs' "entryFee" = none)
    (h' : parse_division_api (JSON.obj kvs') = .ok rec') :
    rec.entry_fee = "0" ∧ rec'.entry_fee = "0" := by
  simp only [parse_division_api, pyGet_obj, bind_ok_red, pure, Except.pure,
    Except.ok.injEq] at h h'
  subst h
  subst h'
  constructor
  · show pyStr (pyOr ((jlookup kvs "entryFee").getD JSON.null) (JSON.str "0")) = "0"
    rw [hv]
    simp [pyOr, hfalsy, pyStr]
  · show pyStr (pyOr ((jlookup kvs' "entryFee").getD JSON.null) (JSON.str "0")) = "0"
    rw [habsent]
    rfl

/-- Witness for C10 at `entryFee = 0` (present, falsy) and at an item
with no `entryFee`. -/
theorem division_entry_fee_falsy_as_absent_witness :
    defaultDivisionRecord.entry_fee = "0" ∧ defaultDivisionRecord.entry_fee = "0" :=
  division_entry_fee_falsy_as_absent [("entryFee", JSON.num 0)] [] (JSON.num 0)
    defaultDivisionRecord defaultDivisionRecord rfl rfl rfl rfl rfl
